import Mathlib

/-!
Verification of `roswtf/py_pip_deb_checks.py` (the Installation Auditor).

The Python module is embedded shallowly:

* The run environment is a structure `Env` recording, for each module
  name, the outcome of a dynamic load (`ImportResult`), the exit status
  of the `dpkg -l` subprocess for each native package name, and the
  result of OS detection (which may fail with an exception).
* Python exceptions are modelled with `Except PyExn`; `Bool`-returning
  Python functions that may raise become `Env → ... → Except PyExn Bool`.
* The module cache (`sys.modules`) is modelled separately as `PyState`
  for the idempotence property; the rule functions themselves observe
  the environment through the stateless interface, as the environment is
  fixed during a run.
-/

set_option autoImplicit false

namespace PyPipDebChecks

/-- A Python exception, as far as this module can distinguish them:
`ImportError` (the only class the source catches), `AttributeError`
(raised when a loaded module lacks a usable `__file__`), and anything
else, carrying a tag. -/
inductive PyExn where
  | importError
  | attributeError
  | other (tag : String)
  deriving DecidableEq

/-- Outcome of `importlib.import_module` on a given name, as supplied by
the run environment: success carrying the module's `__file__` attribute
(`none` when the module exposes no usable on-disk path), or an
exception. -/
inductive ImportResult where
  | ok (file : Option String)
  | raises (e : PyExn)
  deriving DecidableEq

/-- The run environment: what OS detection reports (or the exception it
raises), the response of the dynamic loader for each module name, and
the exit status of the `dpkg -l <pkg>` shell command for each native
package name.  With `shell=True` a launch failure of the tool itself
(absent, permission denied) surfaces as the shell's nonzero exit status
(127 / 126), so every failure mode is a `Nat` exit status here. -/
structure Env where
  hostOS : Except PyExn String
  imports : String → ImportResult
  debExit : String → Nat

/-- `py_to_deb_packages`: the fixed registry mapping logical Python
package names to Debian package names, in source order. -/
def py_to_deb_packages : List (String × String) :=
  [("bloom", "python-bloom"),
   ("catkin", "python-catkin"),
   ("rospkg", "python-rospkg"),
   ("rosinstall", "python-rosinstall"),
   ("rosrelease", "python-rosrelease"),
   ("rosdep", "python-rosdep")]

/-- `get_host_os`: queries the OS detector; its failure is not caught. -/
def get_host_os (env : Env) : Except PyExn String :=
  env.hostOS

/-- `is_host_os_ubuntu`: true iff the detected host OS equals `ubuntu`;
a detector exception propagates. -/
def is_host_os_ubuntu (env : Env) : Except PyExn Bool :=
  match get_host_os env with
  | .error e => .error e
  | .ok os => .ok (os == "ubuntu")

/-- `is_debian_package_installed`: runs `dpkg -l <deb_pkg>` through the
shell, discards its output, and tests the exit status against zero. -/
def is_debian_package_installed (env : Env) (deb_pkg : String) : Bool :=
  env.debExit deb_pkg == 0

/-- `is_a_pip_path_on_ubuntu`: pure substring test, Python's
`'/usr/local' in path`. -/
def is_a_pip_path_on_ubuntu (path : String) : Bool :=
  decide ("/usr/local".toList <:+: path.toList)

/-- `is_python_package_installed`: attempts the dynamic load, returns
true on success, false on `ImportError`; any other exception
propagates. -/
def is_python_package_installed (env : Env) (python_pkg : String) : Except PyExn Bool :=
  match env.imports python_pkg with
  | .ok _ => .ok true
  | .raises .importError => .ok false
  | .raises e => .error e

/-- `is_python_package_installed_via_pip_on_ubuntu`: attempts the
dynamic load; on success applies `is_a_pip_path_on_ubuntu` to the
module's `__file__` (raising `AttributeError`, uncaught, when that
attribute is missing); returns false on `ImportError`; any other
exception propagates. -/
def is_python_package_installed_via_pip_on_ubuntu (env : Env) (python_pkg : String) :
    Except PyExn Bool :=
  match env.imports python_pkg with
  | .ok (some file) => .ok (is_a_pip_path_on_ubuntu file)
  | .ok none => .error .attributeError
  | .raises .importError => .ok false
  | .raises e => .error e

/-- The loop body of `python_module_install_check`: folds over the
registry, appending the name and the fixed separator to the
accumulator for every package whose plain load test fails; an
uncaught exception from the load aborts the loop. -/
def pmicLoop (env : Env) (pkgs : List (String × String)) (warn_str : String) :
    Except PyExn String :=
  match pkgs with
  | [] => .ok warn_str
  | (py_pkg, _) :: rest =>
    match is_python_package_installed env py_pkg with
    | .error e => .error e
    | .ok installed =>
      pmicLoop env rest (if installed then warn_str else warn_str ++ py_pkg ++ " -- ")

/-- `python_module_install_check`: the Missing-Modules rule.  Returns
the accumulated warning string when nonempty, `none` otherwise (Python
falls off the end, returning `None`). -/
def python_module_install_check (env : Env) : Except PyExn (Option String) :=
  match pmicLoop env py_to_deb_packages "" with
  | .error e => .error e
  | .ok warn_str => .ok (if warn_str ≠ "" then some warn_str else none)

/-- The loop body of `deb_install_check_on_ubuntu`: for every registry
pair, appends `<py_pkg> (<deb_pkg>) -- ` when the dpkg query reports the
native package absent. -/
def dicuLoop (env : Env) (pkgs : List (String × String)) (warn_str : String) : String :=
  match pkgs with
  | [] => warn_str
  | (py_pkg, deb_pkg) :: rest =>
    dicuLoop env rest
      (if is_debian_package_installed env deb_pkg then warn_str
       else warn_str ++ py_pkg ++ " (" ++ deb_pkg ++ ") -- ")

/-- `deb_install_check_on_ubuntu`: the Missing-Native-Packages rule,
gated on the host being Ubuntu. -/
def deb_install_check_on_ubuntu (env : Env) : Except PyExn (Option String) :=
  match is_host_os_ubuntu env with
  | .error e => .error e
  | .ok true =>
    let warn_str := dicuLoop env py_to_deb_packages ""
    .ok (if warn_str ≠ "" then some warn_str else none)
  | .ok false => .ok none

/-- The loop body of `pip_install_check_on_ubuntu`: appends the name
and the fixed separator for every registry package whose
conflict-variant load test returns true; an uncaught exception
aborts the loop. -/
def picuLoop (env : Env) (pkgs : List (String × String)) (warn_str : String) :
    Except PyExn String :=
  match pkgs with
  | [] => .ok warn_str
  | (py_pkg, _) :: rest =>
    match is_python_package_installed_via_pip_on_ubuntu env py_pkg with
    | .error e => .error e
    | .ok viaPip =>
      picuLoop env rest (if viaPip then warn_str ++ py_pkg ++ " -- " else warn_str)

/-- `pip_install_check_on_ubuntu`: the Pip-Installed rule, gated on the
host being Ubuntu. -/
def pip_install_check_on_ubuntu (env : Env) : Except PyExn (Option String) :=
  match is_host_os_ubuntu env with
  | .error e => .error e
  | .ok true =>
    match picuLoop env py_to_deb_packages "" with
    | .error e => .error e
    | .ok warn_str => .ok (if warn_str ≠ "" then some warn_str else none)
  | .ok false => .ok none

/-- One entry of the `warnings` / `errors` lists: a rule function paired
with its human-readable message, the Python tuple
`(check_function, message)`. -/
structure Rule where
  check : Env → Except PyExn (Option String)
  message : String

/-- The module-level `warnings` list, in source order. -/
def warnings : List Rule :=
  [⟨python_module_install_check,
    "You are missing core ROS Python modules: "⟩,
   ⟨pip_install_check_on_ubuntu,
    "You have pip installed packages on Ubuntu, remove and install using Debian packages: "⟩,
   ⟨deb_install_check_on_ubuntu,
    "You are missing Debian packages for core ROS Python modules: "⟩]

/-- The module-level `errors` list (empty in the source). -/
def errors : List Rule := []

/-- One call made by `wtf_check` into the host framework: which
registration function was invoked, with which rule tuple, rule result,
and context. -/
inductive FrameworkCall where
  | warningRule (rule : Rule) (result : Option String) (ctx : Env)
  | errorRule (rule : Rule) (result : Option String) (ctx : Env)

/-- The dispatch loop of `wtf_check` over one rule list: evaluates each
rule on the context and records the framework call `mk r (r.check ctx)
ctx`; an exception from a rule propagates. -/
def runRules (env : Env) (rules : List Rule)
    (mk : Rule → Option String → Env → FrameworkCall) :
    Except PyExn (List FrameworkCall) :=
  match rules with
  | [] => .ok []
  | r :: rest =>
    match r.check env with
    | .error e => .error e
    | .ok res =>
      match runRules env rest mk with
      | .error e => .error e
      | .ok calls => .ok (mk r res env :: calls)

/-- `wtf_check`: invokes `warning_rule` for each entry of `warnings`,
then `error_rule` for each entry of `errors`; its only observable
effect is this trace of framework calls (the Python function returns
`None`). -/
def wtf_check (env : Env) : Except PyExn (List FrameworkCall) :=
  match runRules env warnings FrameworkCall.warningRule with
  | .error e => .error e
  | .ok ws =>
    match runRules env errors FrameworkCall.errorRule with
    | .error e => .error e
    | .ok es => .ok (ws ++ es)

/-- Spec-side (the spec calls it `is_importable`): a logical name is
counted importable when the dynamic load succeeds. -/
def importable (env : Env) (pkg : String) : Bool :=
  match env.imports pkg with
  | .ok _ => true
  | .raises _ => false

/-- A package whose dynamic load behaves as the spec's importability
predicate expects: it either succeeds or fails with `ImportError`. -/
def normalImport (env : Env) (pkg : String) : Bool :=
  match env.imports pkg with
  | .ok _ => true
  | .raises .importError => true
  | .raises _ => false

/-- A package whose dynamic load behaves as the spec's conflict-variant
predicate expects: it either succeeds with a usable `__file__` or fails
with `ImportError`. -/
def normalPipImport (env : Env) (pkg : String) : Bool :=
  match env.imports pkg with
  | .ok (some _) => true
  | .ok none => false
  | .raises .importError => true
  | .raises _ => false

/-- Spec-side: a logical name is flagged by the Pip-Installed rule when
its module loads and its resolved file path contains the
conflicting-path substring. -/
def pipFlagged (env : Env) (pkg : String) : Bool :=
  match env.imports pkg with
  | .ok (some file) => is_a_pip_path_on_ubuntu file
  | _ => false

/-- Spec-side aggregation of a warning payload: each entry followed by
the fixed separator (space, two hyphens, space), concatenated in
order. -/
def warnConcat : List String → String
  | [] => ""
  | n :: rest => n ++ " -- " ++ warnConcat rest

/-- The Python module cache `sys.modules`: the names already loaded,
each with its `__file__` attribute. -/
structure PyState where
  modules : List (String × Option String)

/-- The dynamic load with the module cache made explicit: a name found
in `sys.modules` is returned from the cache without consulting the
loader; a fresh successful load is recorded in the cache (the
load-caching side effect of the spec); a failing load leaves the cache
unchanged. -/
def import_module (env : Env) (s : PyState) (pkg : String) : ImportResult × PyState :=
  match s.modules.lookup pkg with
  | some f => (.ok f, s)
  | none =>
    match env.imports pkg with
    | .ok f => (.ok f, ⟨(pkg, f) :: s.modules⟩)
    | .raises e => (.raises e, s)

/-- `is_python_package_installed` with the module cache threaded
through. -/
def is_python_package_installedS (env : Env) (pkg : String) (s : PyState) :
    Except PyExn Bool × PyState :=
  match import_module env s pkg with
  | (.ok _, s2) => (.ok true, s2)
  | (.raises .importError, s2) => (.ok false, s2)
  | (.raises e, s2) => (.error e, s2)

/-- `is_python_package_installed_via_pip_on_ubuntu` with the module
cache threaded through. -/
def is_python_package_installed_via_pip_on_ubuntuS (env : Env) (pkg : String) (s : PyState) :
    Except PyExn Bool × PyState :=
  match import_module env s pkg with
  | (.ok (some file), s2) => (.ok (is_a_pip_path_on_ubuntu file), s2)
  | (.ok none, s2) => (.error .attributeError, s2)
  | (.raises .importError, s2) => (.ok false, s2)
  | (.raises e, s2) => (.error e, s2)

/-- A concrete environment: Ubuntu host, every registry package
loadable from the system tree, every Debian package present. -/
def envAllGood : Env :=
  { hostOS := .ok "ubuntu"
  , imports := fun _ => .ok (some "/usr/lib/pymodules/x.py")
  , debExit := fun _ => 0 }

/-- A concrete mixed environment: Ubuntu host, `bloom` not loadable,
`catkin` loadable from the pip tree, everything else loadable from
the system tree; the `python-rosdep` Debian package absent. -/
def envMixed : Env :=
  { hostOS := .ok "ubuntu"
  , imports := fun pkg =>
      if pkg = "bloom" then .raises .importError
      else if pkg = "catkin" then .ok (some "/usr/local/lib/catkin")
      else .ok (some "/usr/lib/x.py")
  , debExit := fun deb => if deb = "python-rosdep" then 1 else 0 }

/-- A concrete environment on which OS detection raises. -/
def envDetectFail : Env :=
  { hostOS := .error (.other "OsNotDetected")
  , imports := fun _ => .ok (some "/usr/lib/x.py")
  , debExit := fun _ => 0 }

/-- A concrete environment where the dpkg tool cannot be launched: the
shell reports exit status 127 for every query. -/
def envLaunchFail : Env :=
  { hostOS := .ok "ubuntu"
  , imports := fun _ => .raises .importError
  , debExit := fun _ => 127 }

/-- A concrete environment where loading `rospkg` raises a
RuntimeError rather than an ImportError. -/
def envBad : Env :=
  { hostOS := .ok "ubuntu"
  , imports := fun pkg =>
      if pkg = "rospkg" then .raises (.other "RuntimeError")
      else .ok (some "/usr/lib/x.py")
  , debExit := fun _ => 0 }

/-- A non-Ubuntu environment with pip-tree modules and missing Debian
packages, exercising the distribution gate. -/
def envFedora : Env :=
  { hostOS := .ok "fedora"
  , imports := fun _ => .ok (some "/usr/local/lib/x.py")
  , debExit := fun _ => 1 }

theorem warnConcat_ne_empty (n : String) (rest : List String) :
    warnConcat (n :: rest) ≠ "" := by
  intro h
  have hl := congrArg String.length h
  rw [show warnConcat (n :: rest) = (n ++ " -- ") ++ warnConcat rest from rfl,
    String.length_append, String.length_append,
    show (" -- " : String).length = 4 from rfl,
    show ("" : String).length = 0 from rfl] at hl
  omega

theorem pmicLoop_eq (env : Env) (pkgs : List (String × String)) (acc : String)
    (h : ∀ p ∈ pkgs, normalImport env p.1 = true) :
    pmicLoop env pkgs acc =
      .ok (acc ++ warnConcat ((pkgs.filter (fun p => !importable env p.1)).map Prod.fst)) := by
  induction pkgs generalizing acc with
  | nil => simp [pmicLoop, warnConcat]
  | cons p rest ih =>
    obtain ⟨py, deb⟩ := p
    have hp := h (py, deb) (by simp)
    have hrest : ∀ q ∈ rest, normalImport env q.1 = true := fun q hq => h q (by simp [hq])
    cases hi : env.imports py with
    | ok f =>
      simp [pmicLoop, is_python_package_installed, hi, importable, ih _ hrest,
        List.filter_cons]
    | raises e =>
      cases e with
      | importError =>
        simp [pmicLoop, is_python_package_installed, hi, importable, ih _ hrest,
          List.filter_cons, warnConcat, String.append_assoc]
      | attributeError => simp [normalImport, hi] at hp
      | other t => simp [normalImport, hi] at hp

theorem picuLoop_eq (env : Env) (pkgs : List (String × String)) (acc : String)
    (h : ∀ p ∈ pkgs, normalPipImport env p.1 = true) :
    picuLoop env pkgs acc =
      .ok (acc ++ warnConcat ((pkgs.filter (fun p => pipFlagged env p.1)).map Prod.fst)) := by
  induction pkgs generalizing acc with
  | nil => simp [picuLoop, warnConcat]
  | cons p rest ih =>
    obtain ⟨py, deb⟩ := p
    have hp := h (py, deb) (by simp)
    have hrest : ∀ q ∈ rest, normalPipImport env q.1 = true := fun q hq => h q (by simp [hq])
    cases hi : env.imports py with
    | ok f =>
      cases f with
      | some file =>
        cases hb : is_a_pip_path_on_ubuntu file with
        | true =>
          simp [picuLoop, is_python_package_installed_via_pip_on_ubuntu, hi, hb,
            pipFlagged, ih _ hrest, List.filter_cons, warnConcat, String.append_assoc]
        | false =>
          simp [picuLoop, is_python_package_installed_via_pip_on_ubuntu, hi, hb,
            pipFlagged, ih _ hrest, List.filter_cons]
      | none => simp [normalPipImport, hi] at hp
    | raises e =>
      cases e with
      | importError =>
        simp [picuLoop, is_python_package_installed_via_pip_on_ubuntu, hi,
          pipFlagged, ih _ hrest, List.filter_cons]
      | attributeError => simp [normalPipImport, hi] at hp
      | other t => simp [normalPipImport, hi] at hp

theorem dicuLoop_eq (env : Env) (pkgs : List (String × String)) (acc : String) :
    dicuLoop env pkgs acc =
      acc ++ warnConcat ((pkgs.filter (fun p => !is_debian_package_installed env p.2)).map
        (fun p => p.1 ++ " (" ++ p.2 ++ ")")) := by
  induction pkgs generalizing acc with
  | nil => simp [dicuLoop, warnConcat]
  | cons p rest ih =>
    obtain ⟨py, deb⟩ := p
    cases hd : is_debian_package_installed env deb with
    | true => simp [dicuLoop, hd, ih, List.filter_cons]
    | false =>
      simp [dicuLoop, hd, ih, List.filter_cons, warnConcat,
        show (") -- " : String) = ")" ++ " -- " from rfl, String.append_assoc]

/-- Claim C1: for every run environment in which each registry import
either succeeds or fails with `ImportError`, the Missing-Modules rule
returns exactly the non-importable logical names, each exactly once,
each followed by the fixed separator, concatenated in registry
iteration order, and no signal when every package is loadable. -/
theorem python_module_install_check_correct (env : Env)
    (h : ∀ p ∈ py_to_deb_packages, normalImport env p.1 = true) :
    python_module_install_check env =
      .ok (let missing := (py_to_deb_packages.filter (fun p => !importable env p.1)).map Prod.fst
           if missing = [] then none else some (warnConcat missing)) := by
  rw [python_module_install_check, pmicLoop_eq env _ "" h]
  cases hm : (py_to_deb_packages.filter (fun p => !importable env p.1)).map Prod.fst with
  | nil => simp [warnConcat]
  | cons n rest => simp [warnConcat_ne_empty n rest]

theorem python_module_install_check_correct_witness :
    python_module_install_check envMixed =
      .ok (let missing := (py_to_deb_packages.filter (fun p => !importable envMixed p.1)).map Prod.fst
           if missing = [] then none else some (warnConcat missing)) :=
  python_module_install_check_correct envMixed (by decide)

/-- Claim C2: the Pip-Installed rule returns no signal whenever the
detected host distribution is not `ubuntu`, regardless of any load
state; when the host is `ubuntu` (and each registry load behaves
normally for the conflict variant) it returns exactly the logical names
whose resolved module path contains the conflicting-path substring,
aggregated and formatted as in the Missing-Modules rule. -/
theorem pip_install_check_on_ubuntu_correct (env : Env) (d : String)
    (hd : env.hostOS = .ok d)
    (h : d = "ubuntu" → ∀ p ∈ py_to_deb_packages, normalPipImport env p.1 = true) :
    pip_install_check_on_ubuntu env =
      .ok (if d = "ubuntu" then
             (let flagged := (py_to_deb_packages.filter (fun p => pipFlagged env p.1)).map Prod.fst
              if flagged = [] then none else some (warnConcat flagged))
           else none) := by
  by_cases hdu : d = "ubuntu"
  · subst hdu
    rw [pip_install_check_on_ubuntu, is_host_os_ubuntu, get_host_os, hd]
    simp only [beq_self_eq_true]
    rw [picuLoop_eq env _ "" (h rfl)]
    cases hm : (py_to_deb_packages.filter (fun p => pipFlagged env p.1)).map Prod.fst with
    | nil => simp [warnConcat]
    | cons n rest => simp [warnConcat_ne_empty n rest]
  · rw [pip_install_check_on_ubuntu, is_host_os_ubuntu, get_host_os, hd]
    simp [beq_eq_false_iff_ne.mpr hdu, hdu]

theorem pip_install_check_on_ubuntu_correct_witness :
    pip_install_check_on_ubuntu envMixed =
      .ok (if "ubuntu" = "ubuntu" then
             (let flagged := (py_to_deb_packages.filter (fun p => pipFlagged envMixed p.1)).map Prod.fst
              if flagged = [] then none else some (warnConcat flagged))
           else none) :=
  pip_install_check_on_ubuntu_correct envMixed "ubuntu" rfl (by decide)

/-- Claim C3: the Missing-Native-Packages rule returns no signal when
the detected host distribution is not `ubuntu`; when it is `ubuntu` the
rule returns, for every registry pair whose dpkg query exits non-zero,
the logical name with the native name in parentheses followed by the
fixed separator, concatenated in registry iteration order, and no
signal when every native package is installed. -/
theorem deb_install_check_on_ubuntu_correct (env : Env) (d : String)
    (hd : env.hostOS = .ok d) :
    deb_install_check_on_ubuntu env =
      .ok (if d = "ubuntu" then
             (let missing := (py_to_deb_packages.filter
                 (fun p => !is_debian_package_installed env p.2)).map
                 (fun p => p.1 ++ " (" ++ p.2 ++ ")")
              if missing = [] then none else some (warnConcat missing))
           else none) := by
  by_cases hdu : d = "ubuntu"
  · subst hdu
    rw [deb_install_check_on_ubuntu, is_host_os_ubuntu, get_host_os, hd]
    simp only [beq_self_eq_true]
    rw [dicuLoop_eq env _ ""]
    cases hm : (py_to_deb_packages.filter (fun p => !is_debian_package_installed env p.2)).map
        (fun p => p.1 ++ " (" ++ p.2 ++ ")") with
    | nil => simp [warnConcat]
    | cons n rest => simp [warnConcat_ne_empty n rest]
  · rw [deb_install_check_on_ubuntu, is_host_os_ubuntu, get_host_os, hd]
    simp [beq_eq_false_iff_ne.mpr hdu, hdu]

theorem deb_install_check_on_ubuntu_correct_witness :
    deb_install_check_on_ubuntu envMixed =
      .ok (if "ubuntu" = "ubuntu" then
             (let missing := (py_to_deb_packages.filter
                 (fun p => !is_debian_package_installed envMixed p.2)).map
                 (fun p => p.1 ++ " (" ++ p.2 ++ ")")
              if missing = [] then none else some (warnConcat missing))
           else none) :=
  deb_install_check_on_ubuntu_correct envMixed "ubuntu" rfl

/-- Claim C4: the conflicting-installer-path predicate is a pure
function of its string argument, true iff the path contains the fixed
substring `/usr/local`; in particular it is true on
`/usr/local/lib/foo` and false on `/usr/lib/foo`. -/
theorem is_a_pip_path_on_ubuntu_pure_substring :
    (∀ path : String, is_a_pip_path_on_ubuntu path = true ↔ "/usr/local".toList <:+: path.toList)
    ∧ is_a_pip_path_on_ubuntu "/usr/local/lib/foo" = true
    ∧ is_a_pip_path_on_ubuntu "/usr/lib/foo" = false := by
  refine ⟨fun path => ?_, by decide, by decide⟩
  simp [is_a_pip_path_on_ubuntu]

/-- Claim C5: the native-package-installed predicate returns true iff
the dpkg query exits with status zero and false for any non-zero exit
status without raising; since the query runs through the shell, a
launch failure of the tool surfaces as a non-zero status (126/127) and
so collapses into the same false result as an absent package. -/
theorem is_debian_package_installed_exit_status (env : Env) (deb_pkg : String) :
    (is_debian_package_installed env deb_pkg = true ↔ env.debExit deb_pkg = 0)
    ∧ (env.debExit deb_pkg ≠ 0 → is_debian_package_installed env deb_pkg = false) := by
  constructor
  · simp [is_debian_package_installed]
  · intro h
    simp [is_debian_package_installed, h]

theorem is_debian_package_installed_exit_status_witness :
    is_debian_package_installed envLaunchFail "python-bloom" = false :=
  (is_debian_package_installed_exit_status envLaunchFail "python-bloom").2 (by decide)

/-- Claim C6: the conflict-variant import predicate returns false when
the dynamic load fails with `ImportError`, and when the load succeeds
it returns exactly the conflicting-path substring test applied to the
loaded module's on-disk source file path. -/
theorem via_pip_predicate_spec (env : Env) (pkg : String) :
    (env.imports pkg = .raises .importError →
       is_python_package_installed_via_pip_on_ubuntu env pkg = .ok false)
    ∧ (∀ f, env.imports pkg = .ok (some f) →
       is_python_package_installed_via_pip_on_ubuntu env pkg = .ok (is_a_pip_path_on_ubuntu f)) := by
  constructor
  · intro h
    simp [is_python_package_installed_via_pip_on_ubuntu, h]
  · intro f h
    simp [is_python_package_installed_via_pip_on_ubuntu, h]

theorem via_pip_predicate_spec_witness :
    is_python_package_installed_via_pip_on_ubuntu envMixed "bloom" = .ok false
    ∧ is_python_package_installed_via_pip_on_ubuntu envMixed "catkin"
        = .ok (is_a_pip_path_on_ubuntu "/usr/local/lib/catkin") :=
  ⟨(via_pip_predicate_spec envMixed "bloom").1 rfl,
   (via_pip_predicate_spec envMixed "catkin").2 "/usr/local/lib/catkin" rfl⟩

/-- Claim C7: an OS-detection failure propagates uncaught through
`is_host_os_ubuntu` and through both distribution-gated rules: it
surfaces as a hard failure rather than being treated as a host that
is not the target distribution. -/
theorem detection_failure_propagates (env : Env) (e : PyExn)
    (hd : env.hostOS = .error e) :
    is_host_os_ubuntu env = .error e
    ∧ pip_install_check_on_ubuntu env = .error e
    ∧ deb_install_check_on_ubuntu env = .error e := by
  refine ⟨?_, ?_, ?_⟩ <;>
    simp [is_host_os_ubuntu, get_host_os, hd, pip_install_check_on_ubuntu,
      deb_install_check_on_ubuntu]

theorem detection_failure_propagates_witness :
    is_host_os_ubuntu envDetectFail = .error (PyExn.other "OsNotDetected")
    ∧ pip_install_check_on_ubuntu envDetectFail = .error (PyExn.other "OsNotDetected")
    ∧ deb_install_check_on_ubuntu envDetectFail = .error (PyExn.other "OsNotDetected") :=
  detection_failure_propagates envDetectFail (PyExn.other "OsNotDetected") rfl

/-- Claim C8: the dispatcher holds the fixed warning list
(Missing-Modules, then Pip-Installed, then Missing-Native-Packages)
and an empty error list; for each warning entry, in that order, it
calls the framework's warning-registration function exactly once with
(rule descriptor, that rule's result on the run context, run context),
does likewise for the empty error list, and has no observable effect
beyond this trace. -/
theorem wtf_check_dispatch (env : Env) (r1 r2 r3 : Option String)
    (h1 : python_module_install_check env = .ok r1)
    (h2 : pip_install_check_on_ubuntu env = .ok r2)
    (h3 : deb_install_check_on_ubuntu env = .ok r3) :
    warnings = [⟨python_module_install_check,
                 "You are missing core ROS Python modules: "⟩,
                ⟨pip_install_check_on_ubuntu,
                 "You have pip installed packages on Ubuntu, remove and install using Debian packages: "⟩,
                ⟨deb_install_check_on_ubuntu,
                 "You are missing Debian packages for core ROS Python modules: "⟩]
    ∧ errors = []
    ∧ wtf_check env =
        .ok [FrameworkCall.warningRule
               ⟨python_module_install_check,
                "You are missing core ROS Python modules: "⟩ r1 env,
             FrameworkCall.warningRule
               ⟨pip_install_check_on_ubuntu,
                "You have pip installed packages on Ubuntu, remove and install using Debian packages: "⟩ r2 env,
             FrameworkCall.warningRule
               ⟨deb_install_check_on_ubuntu,
                "You are missing Debian packages for core ROS Python modules: "⟩ r3 env] := by
  refine ⟨rfl, rfl, ?_⟩
  simp [wtf_check, runRules, warnings, errors, h1, h2, h3]

theorem wtf_check_dispatch_witness :
    wtf_check envMixed =
        .ok [FrameworkCall.warningRule
               ⟨python_module_install_check,
                "You are missing core ROS Python modules: "⟩ (some "bloom -- ") envMixed,
             FrameworkCall.warningRule
               ⟨pip_install_check_on_ubuntu,
                "You have pip installed packages on Ubuntu, remove and install using Debian packages: "⟩
               (some "catkin -- ") envMixed,
             FrameworkCall.warningRule
               ⟨deb_install_check_on_ubuntu,
                "You are missing Debian packages for core ROS Python modules: "⟩
               (some "rosdep (python-rosdep) -- ") envMixed] :=
  (wtf_check_dispatch envMixed (some "bloom -- ") (some "catkin -- ")
    (some "rosdep (python-rosdep) -- ") rfl rfl rfl).2.2

theorem import_module_stable (env : Env) (s : PyState) (pkg : String) :
    import_module env (import_module env s pkg).2 pkg = import_module env s pkg := by
  cases hl : s.modules.lookup pkg with
  | some f => simp [import_module, hl]
  | none =>
    cases hi : env.imports pkg with
    | ok f => simp [import_module, hl, hi, List.lookup]
    | raises e => simp [import_module, hl, hi]

theorem installedS_state (env : Env) (pkg : String) (s : PyState) :
    (is_python_package_installedS env pkg s).2 = (import_module env s pkg).2 := by
  rcases h : import_module env s pkg with ⟨r, s2⟩
  cases r with
  | ok f => simp [is_python_package_installedS, h]
  | raises e => cases e <;> simp [is_python_package_installedS, h]

theorem pipS_state (env : Env) (pkg : String) (s : PyState) :
    (is_python_package_installed_via_pip_on_ubuntuS env pkg s).2 = (import_module env s pkg).2 := by
  rcases h : import_module env s pkg with ⟨r, s2⟩
  cases r with
  | ok f => cases f <;> simp [is_python_package_installed_via_pip_on_ubuntuS, h]
  | raises e => cases e <;> simp [is_python_package_installed_via_pip_on_ubuntuS, h]

theorem installedS_fst (env : Env) (pkg : String) (s t : PyState)
    (h : (import_module env t pkg).1 = (import_module env s pkg).1) :
    (is_python_package_installedS env pkg t).1 = (is_python_package_installedS env pkg s).1 := by
  rcases hs : import_module env s pkg with ⟨r, s2⟩
  rcases ht : import_module env t pkg with ⟨r2, t2⟩
  rw [hs, ht] at h
  simp at h
  subst h
  cases r2 with
  | ok f => simp [is_python_package_installedS, hs, ht]
  | raises e => cases e <;> simp [is_python_package_installedS, hs, ht]

theorem pipS_fst (env : Env) (pkg : String) (s t : PyState)
    (h : (import_module env t pkg).1 = (import_module env s pkg).1) :
    (is_python_package_installed_via_pip_on_ubuntuS env pkg t).1
      = (is_python_package_installed_via_pip_on_ubuntuS env pkg s).1 := by
  rcases hs : import_module env s pkg with ⟨r, s2⟩
  rcases ht : import_module env t pkg with ⟨r2, t2⟩
  rw [hs, ht] at h
  simp at h
  subst h
  cases r2 with
  | ok f => cases f <;> simp [is_python_package_installed_via_pip_on_ubuntuS, hs, ht]
  | raises e => cases e <;> simp [is_python_package_installed_via_pip_on_ubuntuS, hs, ht]

/-- Claim C9: every predicate of the auditor is deterministic under an
unchanged environment: running the import-based predicates twice in
succession, threading the module cache, yields the same result both
times (the cached module of the first run reproduces the first
result), and the pure and exit-status predicates trivially agree with
themselves on repeated invocation. -/
theorem predicates_idempotent (env : Env) (s : PyState) (pkg path deb_pkg : String) :
    (is_python_package_installedS env pkg ((is_python_package_installedS env pkg s).2)).1
        = (is_python_package_installedS env pkg s).1
    ∧ (is_python_package_installed_via_pip_on_ubuntuS env pkg
        ((is_python_package_installed_via_pip_on_ubuntuS env pkg s).2)).1
        = (is_python_package_installed_via_pip_on_ubuntuS env pkg s).1
    ∧ is_a_pip_path_on_ubuntu path = is_a_pip_path_on_ubuntu path
    ∧ is_debian_package_installed env deb_pkg = is_debian_package_installed env deb_pkg := by
  refine ⟨?_, ?_, rfl, rfl⟩
  · apply installedS_fst
    rw [installedS_state, import_module_stable]
  · apply pipS_fst
    rw [pipS_state, import_module_stable]

theorem pmicLoop_abnormal (env : Env) (pkgs : List (String × String)) (acc : String)
    (h : ∃ p ∈ pkgs, normalImport env p.1 = false) :
    ∃ e, pmicLoop env pkgs acc = .error e := by
  induction pkgs generalizing acc with
  | nil => simp at h
  | cons p rest ih =>
    obtain ⟨py, deb⟩ := p
    cases hc : is_python_package_installed env py with
    | error e => exact ⟨e, by simp [pmicLoop, hc]⟩
    | ok b =>
      have hnorm : normalImport env py = true := by
        cases hi : env.imports py with
        | ok f => simp [normalImport, hi]
        | raises e =>
          cases e with
          | importError => simp [normalImport, hi]
          | attributeError => simp [is_python_package_installed, hi] at hc
          | other t => simp [is_python_package_installed, hi] at hc
      obtain ⟨q, hq, hnq⟩ := h
      rcases List.mem_cons.mp hq with hq | hq
      · rw [hq] at hnq
        simp [hnq] at hnorm
      · obtain ⟨e, he⟩ := ih (if b = true then acc else acc ++ py ++ " -- ") ⟨q, hq, hnq⟩
        exact ⟨e, by simp [pmicLoop, hc, he]⟩

theorem picuLoop_abnormal (env : Env) (pkgs : List (String × String)) (acc : String)
    (h : ∃ p ∈ pkgs, normalPipImport env p.1 = false) :
    ∃ e, picuLoop env pkgs acc = .error e := by
  induction pkgs generalizing acc with
  | nil => simp at h
  | cons p rest ih =>
    obtain ⟨py, deb⟩ := p
    cases hc : is_python_package_installed_via_pip_on_ubuntu env py with
    | error e => exact ⟨e, by simp [picuLoop, hc]⟩
    | ok b =>
      have hnorm : normalPipImport env py = true := by
        cases hi : env.imports py with
        | ok f =>
          cases f with
          | some file => simp [normalPipImport, hi]
          | none => simp [is_python_package_installed_via_pip_on_ubuntu, hi] at hc
        | raises e =>
          cases e with
          | importError => simp [normalPipImport, hi]
          | attributeError => simp [is_python_package_installed_via_pip_on_ubuntu, hi] at hc
          | other t => simp [is_python_package_installed_via_pip_on_ubuntu, hi] at hc
      obtain ⟨q, hq, hnq⟩ := h
      rcases List.mem_cons.mp hq with hq | hq
      · rw [hq] at hnq
        simp [hnq] at hnorm
      · obtain ⟨e, he⟩ := ih (if b = true then acc ++ py ++ " -- " else acc) ⟨q, hq, hnq⟩
        exact ⟨e, by simp [picuLoop, hc, he]⟩

/-- Claim C10: the import predicates catch only `ImportError`: any
other exception raised by the load propagates out of both predicates,
a successful load with no usable file path raises out of the conflict
variant, and such an exception escapes the enclosing rule (the
Missing-Modules rule always, the Pip-Installed rule when the host is
the target distribution) instead of being converted to a
false/no-signal result. -/
theorem import_exceptions_propagate (env : Env) (pkg : String) (ex : PyExn) :
    (ex ≠ PyExn.importError → env.imports pkg = .raises ex →
        is_python_package_installed env pkg = .error ex
      ∧ is_python_package_installed_via_pip_on_ubuntu env pkg = .error ex)
    ∧ (env.imports pkg = .ok none →
        is_python_package_installed_via_pip_on_ubuntu env pkg = .error PyExn.attributeError)
    ∧ (pkg ∈ py_to_deb_packages.map Prod.fst → normalImport env pkg = false →
        ∃ e, python_module_install_check env = .error e)
    ∧ (env.hostOS = .ok "ubuntu" → pkg ∈ py_to_deb_packages.map Prod.fst →
        normalPipImport env pkg = false →
        ∃ e, pip_install_check_on_ubuntu env = .error e) := by
  refine ⟨?_, ?_, ?_, ?_⟩
  · intro hex hi
    cases ex with
    | importError => exact absurd rfl hex
    | attributeError =>
      exact ⟨by simp [is_python_package_installed, hi],
             by simp [is_python_package_installed_via_pip_on_ubuntu, hi]⟩
    | other t =>
      exact ⟨by simp [is_python_package_installed, hi],
             by simp [is_python_package_installed_via_pip_on_ubuntu, hi]⟩
  · intro hi
    simp [is_python_package_installed_via_pip_on_ubuntu, hi]
  · intro hmem habn
    obtain ⟨p, hp, hp1⟩ := List.mem_map.mp hmem
    obtain ⟨e, he⟩ := pmicLoop_abnormal env py_to_deb_packages "" ⟨p, hp, by rw [hp1]; exact habn⟩
    exact ⟨e, by simp [python_module_install_check, he]⟩
  · intro hd hmem habn
    obtain ⟨p, hp, hp1⟩ := List.mem_map.mp hmem
    obtain ⟨e, he⟩ := picuLoop_abnormal env py_to_deb_packages "" ⟨p, hp, by rw [hp1]; exact habn⟩
    refine ⟨e, ?_⟩
    rw [pip_install_check_on_ubuntu, is_host_os_ubuntu, get_host_os, hd]
    simp [he]

theorem import_exceptions_propagate_witness :
    is_python_package_installed envBad "rospkg" = .error (PyExn.other "RuntimeError")
    ∧ (∃ e, python_module_install_check envBad = .error e)
    ∧ (∃ e, pip_install_check_on_ubuntu envBad = .error e) :=
  ⟨((import_exceptions_propagate envBad "rospkg" (PyExn.other "RuntimeError")).1
      (by decide) rfl).1,
   (import_exceptions_propagate envBad "rospkg" (PyExn.other "RuntimeError")).2.2.1
      (by decide) (by decide),
   (import_exceptions_propagate envBad "rospkg" (PyExn.other "RuntimeError")).2.2.2
      rfl (by decide) (by decide)⟩

end PyPipDebChecks
